import Mathlib

/-!
Verification development for the MAFORAI transient-source pipeline.

The pipeline's Python modules (`parser.py`, `dataset.py`, `lightcurves.py`,
`llm_copilot.py`) are shallowly embedded below.  JSON values (the untyped
records the pipeline processes) are modelled by the inductive `JValue`;
Python dictionaries are association lists with string keys; Python
exceptions (KeyError from validation, AttributeError from calling `.get`
on a non-dictionary) are modelled with `Except String`; the pandas
`DataFrame(list_of_dicts)` constructor is modelled by `mkDataFrame`,
whose column set is the first-appearance union of the rows' keys (an
empty row list yields an empty column set, as pandas does).
-/

/-- A JSON-like value: Python `None`, booleans, numbers (modelled as
rationals), strings, lists and dictionaries.  Dictionaries are
association lists with distinct keys; lookup takes the first match. -/
inductive JValue where
  | null : JValue
  | bool : Bool → JValue
  | num : ℚ → JValue
  | str : String → JValue
  | arr : List JValue → JValue
  | obj : List (String × JValue) → JValue

/-- First-match lookup in an association list, modelling Python
dictionary indexing (`k in d` is `(lookup? d k).isSome`). -/
def lookup? : List (String × JValue) → String → Option JValue
  | [], _ => none
  | (k, v) :: t, key => if k = key then some v else lookup? t key

/-- Python `key in dict`. -/
def hasKey (d : List (String × JValue)) (k : String) : Bool :=
  (lookup? d k).isSome

/-- Python `dict.get(key)`: the stored value, or `None` when the key is
absent. -/
def dictGet (d : List (String × JValue)) (k : String) : JValue :=
  (lookup? d k).getD .null

/-- Python `value is None`. -/
def JValue.isNull : JValue → Bool
  | .null => true
  | _ => false

/-- Python `isinstance(value, dict)`. -/
def JValue.isObj : JValue → Bool
  | .obj _ => true
  | _ => false

/-- Python `isinstance(value, list)`. -/
def JValue.isArr : JValue → Bool
  | .arr _ => true
  | _ => false

/-- Python truthiness of a JSON value: `None`, `False`, `0`, `""`, `[]`
and the empty dictionary are falsy, everything else is truthy. -/
def truthy : JValue → Bool
  | .null => false
  | .bool b => b
  | .num q => q != 0
  | .str s => !s.isEmpty
  | .arr l => !l.isEmpty
  | .obj d => !d.isEmpty

/-- Python `a or b`: `a` when `a` is truthy, otherwise `b`. -/
def pyOr (a b : JValue) : JValue :=
  if truthy a then a else b

/-- Python `value.get(key)` on an arbitrary value: succeeds on a
dictionary, raises `AttributeError` on anything else. -/
def jGet : JValue → String → Except String JValue
  | .obj d, k => .ok (dictGet d k)
  | _, _ => .error "AttributeError: object has no attribute get"

/-! ## parser.py -/

/-- The loop body of `validate_source`: checks the listed fields in
order and raises `KeyError` at the first one absent from the record. -/
def validateFields : List String → List (String × JValue) → Except String Unit
  | [], _ => .ok ()
  | f :: rest, d =>
    if hasKey d f then validateFields rest d
    else .error ("Missing required field: " ++ f)

/-- `parser.validate_source`: requires `id`, `ra`, `dec`, `score`, in
that fixed order. -/
def validate_source (d : List (String × JValue)) : Except String Unit :=
  validateFields ["id", "ra", "dec", "score"] d

/-- `parser.parse_label`: `tns = obj.get("tns_info") or {}`, then
`tns.get("object_type")`; `None` when `object_type` is `None`, else
`object_type.get("name")`.  `.get` on a truthy non-dictionary raises. -/
def parse_label (d : List (String × JValue)) : Except String JValue :=
  match jGet (pyOr (dictGet d "tns_info") (.obj [])) "object_type" with
  | .error e => .error e
  | .ok obj_type =>
    if obj_type.isNull then .ok .null
    else jGet obj_type "name"

/-- `parser.parse_photometry`: `tns = obj.get("tns_info") or {}`,
`photometry = tns.get("photometry") or []`, then an `isinstance(_, list)`
guard returning `[]` for a non-list. -/
def parse_photometry (d : List (String × JValue)) : Except String (List JValue) :=
  match jGet (pyOr (dictGet d "tns_info") (.obj [])) "photometry" with
  | .error e => .error e
  | .ok pv =>
    match pyOr pv (.arr []) with
    | .arr l => .ok l
    | _ => .ok []

/-- `parser.parse_spectra`: same shape as `parse_photometry` with the
`spectra` key. -/
def parse_spectra (d : List (String × JValue)) : Except String (List JValue) :=
  match jGet (pyOr (dictGet d "tns_info") (.obj [])) "spectra" with
  | .error e => .error e
  | .ok sv =>
    match pyOr sv (.arr []) with
    | .arr l => .ok l
    | _ => .ok []

/-! ## dataset.py -/

/-- `dataset.source_to_row`: `None` for a non-dictionary input;
otherwise validates, extracts photometry / spectra / label, and builds
the flat row with the code's exact key order.  `obj["id"]`, `obj["ra"]`
and `obj["dec"]` are plain subscripts, but validation has just
guaranteed those keys exist, so they equal `dictGet`. -/
def source_to_row (v : JValue) : Except String (Option (List (String × JValue))) :=
  match v with
  | .obj d =>
    match validate_source d with
    | .error e => .error e
    | .ok _ =>
      match parse_photometry d with
      | .error e => .error e
      | .ok photometry =>
        match parse_spectra d with
        | .error e => .error e
        | .ok spectra =>
          match parse_label d with
          | .error e => .error e
          | .ok label =>
            .ok (some [
              ("id", dictGet d "id"),
              ("ra", dictGet d "ra"),
              ("dec", dictGet d "dec"),
              ("score", dictGet d "score"),
              ("is_transient", dictGet d "transient"),
              ("is_varstar", dictGet d "varstar"),
              ("is_roid", dictGet d "is_roid"),
              ("redshift", dictGet d "redshift"),
              ("label", label),
              ("has_tns", .bool (dictGet d "tns_info").isObj),
              ("has_redshift", .bool (!(dictGet d "redshift").isNull)),
              ("has_photometry", .bool (decide (0 < photometry.length))),
              ("has_spectra", .bool (decide (0 < spectra.length))),
              ("n_photometry", .num photometry.length),
              ("n_spectra", .num spectra.length)])
  | _ => .ok none

/-- The row-accumulating loop of `dataset.build_dataset`: skip
non-dictionary entries, flatten the rest, appending each row that is
not `None`; an exception raised while flattening aborts the whole
loop. -/
def buildRows : List JValue → Except String (List (List (String × JValue)))
  | [] => .ok []
  | v :: rest =>
    if v.isObj then
      match source_to_row v with
      | .error e => .error e
      | .ok row? =>
        match buildRows rest with
        | .error e => .error e
        | .ok rs =>
          .ok (match row? with
               | some r => r :: rs
               | none => rs)
    else buildRows rest

/-- A pandas `DataFrame` abstracted to its column list and its rows
(kept as key/value rows; absent keys read as missing). -/
structure DataFrame where
  columns : List String
  rows : List (List (String × JValue))

/-- Column collection of `pandas.DataFrame(list_of_dicts)`: the union
of the rows' keys in order of first appearance; an empty row list
yields no columns. -/
def collectCols (acc : List String) : List (List (String × JValue)) → List String
  | [] => acc
  | r :: t =>
    collectCols (r.foldl (fun a kv => if a.contains kv.1 then a else a ++ [kv.1]) acc) t

/-- `pandas.DataFrame(rows)` for a list of dictionary rows. -/
def mkDataFrame (rows : List (List (String × JValue))) : DataFrame :=
  ⟨collectCols [] rows, rows⟩

/-- `dataset.build_dataset`: accumulate the rows, then build the
tabular result. -/
def build_dataset (data : List JValue) : Except String DataFrame :=
  match buildRows data with
  | .error e => .error e
  | .ok rows => .ok (mkDataFrame rows)

/-! ## lightcurves.py -/

/-- `lightcurves.photometry_point_to_row`: `None` for a non-dictionary
point or a point whose `jd` is `None` (absent key or stored null);
otherwise the flat row, with `is_detection` computed as
`flux is not None` and the filter name read through
`filters = point.get("filters") or {}` guarded by `isinstance`. -/
def photometry_point_to_row (source_id : JValue) (point : JValue) :
    Option (List (String × JValue)) :=
  match point with
  | .obj p =>
    let jd := dictGet p "jd"
    let flux := dictGet p "flux"
    if jd.isNull then none
    else
      let filters := pyOr (dictGet p "filters") (.obj [])
      let filt_name := match filters with
                       | .obj f => dictGet f "name"
                       | _ => .null
      some [
        ("id", source_id),
        ("jd", jd),
        ("flux", flux),
        ("flux_err", dictGet p "fluxerr"),
        ("filter", filt_name),
        ("is_detection", .bool (!flux.isNull))]
  | _ => none

/-- `lightcurves.source_to_lightcurve_rows`: `obj.get("id")` (raising
on a non-dictionary), photometry extraction, then one row per point
that yields one, in order. -/
def source_to_lightcurve_rows (v : JValue) :
    Except String (List (List (String × JValue))) :=
  match v with
  | .obj d =>
    match parse_photometry d with
    | .error e => .error e
    | .ok photometry =>
      .ok (photometry.filterMap (photometry_point_to_row (dictGet d "id")))
  | _ => .error "AttributeError: object has no attribute get"

/-- The row-accumulating loop of `lightcurves.build_lightcurve_dataset`:
skip non-dictionaries, skip dictionaries whose `id` is `None`, then one
row per photometry point that yields one; an exception from photometry
extraction aborts the loop. -/
def buildLCRows : List JValue → Except String (List (List (String × JValue)))
  | [] => .ok []
  | v :: rest =>
    match v with
    | .obj d =>
      if (dictGet d "id").isNull then buildLCRows rest
      else
        match parse_photometry d with
        | .error e => .error e
        | .ok photometry =>
          match buildLCRows rest with
          | .error e => .error e
          | .ok rs =>
            .ok (photometry.filterMap (photometry_point_to_row (dictGet d "id")) ++ rs)
    | _ => buildLCRows rest

/-- `lightcurves.build_lightcurve_dataset`. -/
def build_lightcurve_dataset (data : List JValue) : Except String DataFrame :=
  match buildLCRows data with
  | .error e => .error e
  | .ok rows => .ok (mkDataFrame rows)

/-! ## llm_copilot.py -/

/-- A flattened lightcurve row as consumed by the summarizer, typed per
the data model: a numeric Julian date, a nullable numeric flux (pandas
`notna` keeps exactly the non-null entries) and a nullable filter
name. -/
structure LCRow where
  jd : ℚ
  flux : Option ℚ
  filt : Option String

/-- The summary dictionary returned by `summarize_lightcurve`; the
three statistics that the code sets to `None` when there is no
detection are `Option` valued. -/
structure LCSummary where
  n_points : Nat
  n_detections : Nat
  filters : List String
  flux_min : Option ℚ
  flux_max : Option ℚ
  time_span_days : Option ℚ

/-- `llm_copilot.summarize_lightcurve`: detections are the rows with
non-null flux; always the point count, detection count and sorted
distinct non-null filter names; min / max flux and `max jd - min jd`
over detections only when there is at least one detection, explicit
`None` otherwise. -/
def summarize_lightcurve (lc : List LCRow) : LCSummary :=
  let detections := lc.filter (fun r => r.flux.isSome)
  { n_points := lc.length
    n_detections := detections.length
    filters := List.insertionSort (fun a b => a ≤ b) (lc.filterMap (fun r => r.filt)).dedup
    flux_min :=
      if detections.isEmpty then none
      else (detections.filterMap (fun r => r.flux)).min?
    flux_max :=
      if detections.isEmpty then none
      else (detections.filterMap (fun r => r.flux)).max?
    time_span_days :=
      if detections.isEmpty then none
      else
        match (detections.map (fun r => r.jd)).max?, (detections.map (fun r => r.jd)).min? with
        | some mx, some mn => some (mx - mn)
        | _, _ => none }

/-- Rendering of a numeric value inside an f-string.  Python formats
floating-point numbers; the exact digit string is irrelevant to every
claim, so the rational is rendered as numerator / denominator. -/
def numRepr (q : ℚ) : String :=
  if q.den = 1 then toString q.num
  else toString q.num ++ "/" ++ toString q.den

/-- Python `str()` as used by f-string interpolation: `None` renders as
the fixed token `None`, booleans as `True` / `False`; container
rendering is abstracted to the same conversion on elements (element
quoting and float formatting are not modelled; no claim depends on
them). -/
def pyStr : JValue → String
  | .null => "None"
  | .bool b => if b then "True" else "False"
  | .num q => numRepr q
  | .str s => s
  | .arr l => "[" ++ String.intercalate ", " (l.map fun v =>
      match v with
      | .null => "None"
      | .bool b => if b then "True" else "False"
      | .num q => numRepr q
      | .str s => s
      | .arr _ => "[...]"
      | .obj _ => "\x7b...\x7d") ++ "]"
  | .obj _ => "\x7b...\x7d"

/-- A character stripped by Python `str.strip()`. -/
def isPySpace (c : Char) : Bool :=
  c = ' ' || c = '\t' || c = '\n' || c = '\r' || c = '\x0b' || c = '\x0c'

/-- Python `str.strip()`: drop leading and trailing whitespace. -/
def pyStrip (s : String) : String :=
  ⟨((s.data.dropWhile isPySpace).reverse.dropWhile isPySpace).reverse⟩

/-- Concatenation of the pieces of an f-string. -/
def catStrings : List String → String
  | [] => ""
  | s :: t => s ++ catStrings t

/-- The opening fixed fragment of the `build_prompt` f-string, from the
character after the leading newline up to the first interpolation. -/
def pHead : String :=
  "The astronomer is mainly interested in:\n- Supernovae\n- Kilonovae\n- Other extragalactic transients\n\nThey want to avoid:\n- Galactic variable stars\n- Minor objects\n- Artifacts\n\n=== Source metadata ===\nID: "

/-- The closing fixed fragment of the `build_prompt` f-string, from the
last interpolation up to the character before the trailing newline. -/
def pTask : String :=
  "\n\n=== Task ===\n1. Summarize the key information an astronomer should know.\n2. Is this transient likely extragalactic? Briefly justify.\n3. Does this transient deserve follow-up observations?\n4. If yes, suggest what kind of follow-up (e.g. spectroscopy, more photometry).\n\nBe concise and explicit about uncertainty."

/-- The alternating fixed fragments and interpolated
`source_row.get` / `lc_summary.get` values of the `build_prompt`
f-string strictly between `pHead` and `pTask`. -/
def bodyMid (source_row lc_summary : List (String × JValue)) : List String :=
  [pyStr (dictGet source_row "id"),
   "\nRA / Dec: ",
   pyStr (dictGet source_row "ra"),
   ", ",
   pyStr (dictGet source_row "dec"),
   "\nDetection score: ",
   pyStr (dictGet source_row "score"),
   "\n\nPipeline flags:\n- Is transient (heuristic): ",
   pyStr (dictGet source_row "is_transient"),
   "\n- Is variable star: ",
   pyStr (dictGet source_row "is_varstar"),
   "\n- Is minor object: ",
   pyStr (dictGet source_row "is_roid"),
   "\n\nHigh-confidence signals:\n- TNS reported: ",
   pyStr (dictGet source_row "has_tns"),
   "\n- Redshift available: ",
   pyStr (dictGet source_row "has_redshift"),
   "\n- Spectra available: ",
   pyStr (dictGet source_row "has_spectra"),
   "\n- Redshift value: ",
   pyStr (dictGet source_row "redshift"),
   "\n- TNS label (if any): ",
   pyStr (dictGet source_row "label"),
   "\n\n=== Lightcurve summary ===\nNumber of photometry points: ",
   pyStr (dictGet lc_summary "n_points"),
   "\nNumber of detections: ",
   pyStr (dictGet lc_summary "n_detections"),
   "\nFilters used: ",
   pyStr (dictGet lc_summary "filters"),
   "\nFlux range: ",
   pyStr (dictGet lc_summary "flux_min"),
   " to ",
   pyStr (dictGet lc_summary "flux_max"),
   "\nObserved time span (days): ",
   pyStr (dictGet lc_summary "time_span_days")]

/-- The f-string body between the leading and trailing newline:
opening fragment, alternating middle, closing fragment. -/
def promptBody (source_row lc_summary : List (String × JValue)) : List String :=
  pHead :: bodyMid source_row lc_summary ++ [pTask]

/-- All pieces of the `build_prompt` f-string before `.strip()`: the
newline right after the opening triple quote, the body, and the newline
right before the closing triple quote. -/
def promptPieces (source_row lc_summary : List (String × JValue)) : List String :=
  "\n" :: promptBody source_row lc_summary ++ ["\n"]

/-- `llm_copilot.build_prompt`: the rendered f-string, stripped. -/
def build_prompt (source_row lc_summary : List (String × JValue)) : String :=
  pyStrip (catStrings (promptPieces source_row lc_summary))

/-- Whether `pre` is an initial segment of `l`. -/
def startsList : List Char → List Char → Bool
  | [], _ => true
  | _ :: _, [] => false
  | a :: as, b :: bs => a == b && startsList as bs

/-- Whether `needle` occurs contiguously inside `hay`. -/
def hasSub (hay needle : List Char) : Bool :=
  match hay with
  | [] => startsList needle []
  | _ :: t => startsList needle hay || hasSub t needle

/-- Whether `needle` is a contiguous substring of `hay`. -/
def strHas (hay needle : String) : Bool :=
  hasSub hay.data needle.data

/-! ## Helper lemmas -/

/-- Appending on the right preserves an initial-segment match. -/
theorem startsList_append (n : List Char) : ∀ (s t : List Char),
    startsList n s = true → startsList n (s ++ t) = true := by
  induction n with
  | nil => intro s t _; simp [startsList]
  | cons a as ih =>
    intro s t h
    cases s with
    | nil => simp [startsList] at h
    | cons b bs =>
      simp only [startsList, Bool.and_eq_true, beq_iff_eq] at h
      simp [startsList, h.1, ih bs t h.2]

/-- The empty needle occurs in every haystack. -/
theorem hasSub_nil (t : List Char) : hasSub t [] = true := by
  cases t <;> simp [hasSub, startsList]

/-- An occurrence in the left part survives appending on the right. -/
theorem hasSub_append_left (n : List Char) : ∀ (s t : List Char),
    hasSub s n = true → hasSub (s ++ t) n = true := by
  intro s
  induction s with
  | nil =>
    intro t h
    cases n with
    | nil => exact hasSub_nil t
    | cons a as => simp [hasSub, startsList] at h
  | cons c cs ih =>
    intro t h
    simp only [hasSub, Bool.or_eq_true] at h ⊢
    rcases h with h | h
    · exact Or.inl (startsList_append n (c :: cs) t h)
    · exact Or.inr (ih t h)

/-- An occurrence in the right part survives appending on the left. -/
theorem hasSub_append_right (n : List Char) : ∀ (s t : List Char),
    hasSub t n = true → hasSub (s ++ t) n = true := by
  intro s
  induction s with
  | nil => intro t h; simpa using h
  | cons c cs ih =>
    intro t h
    simp only [List.cons_append, hasSub, Bool.or_eq_true]
    exact Or.inr (ih t h)

/-- Concatenation of strings concatenates the character data. -/
theorem strData_append (a b : String) : (a ++ b).data = a.data ++ b.data := by
  cases a; cases b; rfl

/-- The character data of a concatenated piece list is the
concatenation of the pieces' data. -/
theorem catStrings_append (A B : List String) :
    (catStrings (A ++ B)).data = (catStrings A).data ++ (catStrings B).data := by
  induction A with
  | nil => simp [catStrings]
  | cons a t ih => simp [catStrings, strData_append, ih, List.append_assoc]

/-- A needle occurring in one piece occurs in the concatenation. -/
theorem hasSub_cat_of_mem (s : String) (n : List Char) : ∀ (L : List String),
    s ∈ L → hasSub s.data n = true → hasSub (catStrings L).data n = true := by
  intro L
  induction L with
  | nil => intro h; cases h
  | cons a t ih =>
    intro hmem h
    have hdat : (catStrings (a :: t)).data = a.data ++ (catStrings t).data := by
      simp [catStrings, strData_append]
    rcases List.mem_cons.mp hmem with rfl | hmem
    · rw [hdat]; exact hasSub_append_left n _ _ h
    · rw [hdat]; exact hasSub_append_right n _ _ (ih hmem h)

/-- `dropWhile` leaves a list whole once its head survives; appending
anything after such a list changes nothing. -/
theorem dropWhile_append_of_fix (p : Char → Bool) (l1 l2 : List Char)
    (hne : l1 ≠ []) (hfix : l1.dropWhile p = l1) :
    (l1 ++ l2).dropWhile p = l1 ++ l2 := by
  cases l1 with
  | nil => exact absurd rfl hne
  | cons c t =>
    have hc : p c = false := by
      by_contra hcc
      rw [List.dropWhile_cons_of_pos (by simpa using hcc)] at hfix
      have := (List.dropWhile_sublist (l := t) p).length_le
      rw [hfix] at this
      simp at this
    simp [List.dropWhile_cons, hc]

/-! ## Claim theorems -/

/-- C1: for every source record (a mapping), validation fails with a
"missing field" error naming the first absent field among `id`, `ra`,
`dec`, `score`, checked in that fixed order, and succeeds (purely, with
no side effect: the embedding is a pure function) whenever all four are
present, regardless of any other fields. -/
theorem C1_validate_source_first_missing (d : List (String × JValue)) :
    (hasKey d "id" = true → hasKey d "ra" = true → hasKey d "dec" = true →
      hasKey d "score" = true → validate_source d = .ok ()) ∧
    (hasKey d "id" = false →
      validate_source d = .error "Missing required field: id") ∧
    (hasKey d "id" = true → hasKey d "ra" = false →
      validate_source d = .error "Missing required field: ra") ∧
    (hasKey d "id" = true → hasKey d "ra" = true → hasKey d "dec" = false →
      validate_source d = .error "Missing required field: dec") ∧
    (hasKey d "id" = true → hasKey d "ra" = true → hasKey d "dec" = true →
      hasKey d "score" = false →
      validate_source d = .error "Missing required field: score") := by
  refine ⟨?_, ?_, ?_, ?_, ?_⟩ <;> intros <;>
    simp_all [validate_source, validateFields]

/-- Witness for C1 at concrete records: all four fields present
succeeds; a record with `id` but no `ra` fails naming `ra`. -/
theorem C1_witness :
    validate_source [("id", .num 1), ("ra", .num 2), ("dec", .num 3),
      ("score", .num 4), ("extra", .null)] = .ok () ∧
    validate_source [("id", .num 1), ("dec", .num 3)] =
      .error "Missing required field: ra" :=
  ⟨(C1_validate_source_first_missing _).1 rfl rfl rfl rfl,
   (C1_validate_source_first_missing _).2.2.1 rfl rfl⟩

/-- C2 counterexample: the claim says photometry / spectra extraction
never fail and return `[]` whenever `tns_info` is not an object, but a
truthy non-mapping `tns_info` (here the nonempty string `"x"`) makes
`tns.get(...)` raise an `AttributeError` in both extractors. -/
theorem C2_counterexample :
    parse_photometry [("tns_info", .str "x")] =
      .error "AttributeError: object has no attribute get" ∧
    parse_spectra [("tns_info", .str "x")] =
      .error "AttributeError: object has no attribute get" :=
  ⟨rfl, rfl⟩

/-- C2 (amended): extraction never fails and returns the nested value
when it is a list and `[]` otherwise, provided `tns_info` is falsy
(absent, null, or otherwise falsy) or a mapping; a truthy non-mapping
`tns_info` raises an attribute error instead of recovering. -/
theorem C2_extraction_safe_unless_truthy_nonmapping
    (d : List (String × JValue)) :
    (truthy (dictGet d "tns_info") = false →
      parse_photometry d = .ok [] ∧ parse_spectra d = .ok []) ∧
    (∀ t, dictGet d "tns_info" = .obj t →
      parse_photometry d =
        .ok (match dictGet t "photometry" with | .arr l => l | _ => []) ∧
      parse_spectra d =
        .ok (match dictGet t "spectra" with | .arr l => l | _ => [])) := by
  constructor
  · intro hf
    have hor : pyOr (dictGet d "tns_info") (.obj []) = .obj [] := by
      simp [pyOr, hf]
    constructor
    · rw [parse_photometry, hor]
      simp [jGet, dictGet, lookup?, pyOr, truthy]
    · rw [parse_spectra, hor]
      simp [jGet, dictGet, lookup?, pyOr, truthy]
  · intro t ht
    have hor : pyOr (dictGet d "tns_info") (.obj []) = .obj t := by
      rw [ht]
      cases t <;> simp [pyOr, truthy]
    constructor
    · rw [parse_photometry, hor]
      simp only [jGet]
      cases hpv : dictGet t "photometry" with
      | null => simp [pyOr, truthy]
      | bool b => cases b <;> simp [pyOr, truthy]
      | num q =>
        by_cases hq : q = 0 <;> simp [pyOr, truthy, hq]
      | str s => cases hs : s.isEmpty <;> simp [pyOr, truthy, hs]
      | arr l => cases l <;> simp [pyOr, truthy]
      | obj o => cases o <;> simp [pyOr, truthy]
    · rw [parse_spectra, hor]
      simp only [jGet]
      cases hpv : dictGet t "spectra" with
      | null => simp [pyOr, truthy]
      | bool b => cases b <;> simp [pyOr, truthy]
      | num q =>
        by_cases hq : q = 0 <;> simp [pyOr, truthy, hq]
      | str s => cases hs : s.isEmpty <;> simp [pyOr, truthy, hs]
      | arr l => cases l <;> simp [pyOr, truthy]
      | obj o => cases o <;> simp [pyOr, truthy]

/-- Witness for C2 at concrete records: a null `tns_info` and a mapping
`tns_info` whose `photometry` is a non-list both recover to `[]`. -/
theorem C2_witness :
    (parse_photometry [("tns_info", .null)] = .ok [] ∧
      parse_spectra [("tns_info", .null)] = .ok []) ∧
    (parse_photometry [("tns_info", .obj [("photometry", .num 5)])] = .ok [] ∧
      parse_spectra [("tns_info", .obj [("photometry", .num 5)])] = .ok []) :=
  ⟨(C2_extraction_safe_unless_truthy_nonmapping _).1 rfl,
   (C2_extraction_safe_unless_truthy_nonmapping
      [("tns_info", .obj [("photometry", .num 5)])]).2
      [("photometry", .num 5)] rfl⟩

/-- A non-mapping entry anywhere in the input leaves the source row
loop unchanged. -/
theorem buildRows_append_skip (post : List JValue) (v : JValue)
    (h : v.isObj = false) : ∀ pre : List JValue,
    buildRows (pre ++ v :: post) = buildRows (pre ++ post) := by
  intro pre
  induction pre with
  | nil => simp [buildRows, h]
  | cons x t ih =>
    by_cases hx : x.isObj <;> simp [buildRows, hx, ih]

/-- If flattening a record raises and every record before it flattened
successfully, the whole source row loop raises that error. -/
theorem buildRows_append_error (post : List JValue) (v : JValue) (e : String)
    (hv : source_to_row v = .error e) (hobj : v.isObj = true) :
    ∀ (pre : List JValue) (rs : List (List (String × JValue))),
    buildRows pre = .ok rs → buildRows (pre ++ v :: post) = .error e := by
  intro pre
  induction pre with
  | nil => intro rs _; simp [buildRows, hobj, hv]
  | cons x t ih =>
    intro rs h
    by_cases hx : x.isObj
    · cases hsx : source_to_row x with
      | error e2 => rw [buildRows] at h; simp [hx, hsx] at h
      | ok row? =>
        cases hbt : buildRows t with
        | error e2 => rw [buildRows] at h; simp [hx, hsx, hbt] at h
        | ok rs2 => simp [buildRows, hx, hsx, ih rs2 hbt]
    · rw [buildRows] at h
      simp only [hx, Bool.false_eq_true, if_false] at h
      simp [buildRows, hx, ih rs h]

/-- C3: the source-level dataset builder skips non-mapping entries
silently, but a mapping entry missing a required field aborts the whole
build with the validation error (provided the records before it
flattened without raising), instead of a per-record skip. -/
theorem C3_build_skips_nonmappings_but_fails_on_missing_field
    (pre : List JValue) (v : JValue) (post : List JValue)
    (d : List (String × JValue)) (e : String)
    (rs : List (List (String × JValue))) :
    (v.isObj = false →
      build_dataset (pre ++ v :: post) = build_dataset (pre ++ post)) ∧
    (v = .obj d → validate_source d = .error e → buildRows pre = .ok rs →
      build_dataset (pre ++ v :: post) = .error e) := by
  constructor
  · intro h
    unfold build_dataset
    rw [buildRows_append_skip post v h pre]
  · intro hv hval hpre
    subst hv
    have hsr : source_to_row (.obj d) = .error e := by
      simp [source_to_row, hval]
    unfold build_dataset
    rw [buildRows_append_error post _ e hsr rfl pre rs hpre]

/-- Witness for C3 at a concrete input: a string entry is skipped, and
a mapping missing `score` aborts the whole build even though a later
record is valid. -/
theorem C3_witness :
    build_dataset [.str "not-a-dict",
      .obj [("id", .num 1), ("ra", .num 2), ("dec", .num 3), ("score", .num 4)]] =
      build_dataset [.obj [("id", .num 1), ("ra", .num 2), ("dec", .num 3), ("score", .num 4)]] ∧
    build_dataset [.obj [("id", .num 1), ("ra", .num 2), ("dec", .num 3)],
      .obj [("id", .num 1), ("ra", .num 2), ("dec", .num 3), ("score", .num 4)]] =
      .error "Missing required field: score" :=
  ⟨(C3_build_skips_nonmappings_but_fails_on_missing_field [] (.str "not-a-dict")
      [.obj [("id", .num 1), ("ra", .num 2), ("dec", .num 3), ("score", .num 4)]]
      [] "" []).1 rfl,
   (C3_build_skips_nonmappings_but_fails_on_missing_field []
      (.obj [("id", .num 1), ("ra", .num 2), ("dec", .num 3)])
      [.obj [("id", .num 1), ("ra", .num 2), ("dec", .num 3), ("score", .num 4)]]
      [("id", .num 1), ("ra", .num 2), ("dec", .num 3)]
      "Missing required field: score" []).2 rfl rfl rfl⟩

/-- C4 counterexample: an empty input yields a table with an empty
column list in both builders, while a non-empty source build carries
the fixed fifteen-column contract, so the empty table does not have
"the same column contract" as a non-empty build. -/
theorem C4_counterexample :
    build_dataset [] = .ok ⟨[], []⟩ ∧
    build_lightcurve_dataset [] = .ok ⟨[], []⟩ ∧
    (build_dataset
        [.obj [("id", .num 1), ("ra", .num 2), ("dec", .num 3), ("score", .num 4)]]).map
      DataFrame.columns =
      .ok ["id", "ra", "dec", "score", "is_transient", "is_varstar", "is_roid",
           "redshift", "label", "has_tns", "has_redshift", "has_photometry",
           "has_spectra", "n_photometry", "n_spectra"] ∧
    ([] : List String) ≠
      ["id", "ra", "dec", "score", "is_transient", "is_varstar", "is_roid",
       "redshift", "label", "has_tns", "has_redshift", "has_photometry",
       "has_spectra", "n_photometry", "n_spectra"] :=
  ⟨rfl, rfl, rfl, by decide⟩

/-- C4 (amended): for the empty input sequence both builders yield the
empty table whose column set is empty — the pandas list-of-dicts
constructor derives columns from the rows, so the empty build does not
carry the fixed column contract of a non-empty build. -/
theorem C4_empty_build_has_no_columns :
    build_dataset [] = .ok ⟨[], []⟩ ∧
    build_lightcurve_dataset [] = .ok ⟨[], []⟩ :=
  ⟨rfl, rfl⟩

/-- C5: a photometry point yields no row when it is not a mapping or
its `jd` is absent (per the data model, absent fields and stored nulls
coincide: `point.get("jd")` returns `None` for both); when `jd` is
non-absent a row is emitted whose `is_detection` equals "`flux` present
and non-null" — in particular `False` when `flux` is absent — and a
missing or malformed (non-mapping) `filters` sub-structure yields an
absent filter value rather than a failure. -/
theorem C5_photometry_point_characterization (sid point : JValue) :
    (point.isObj = false → photometry_point_to_row sid point = none) ∧
    (∀ p, point = .obj p → (dictGet p "jd").isNull = true →
      photometry_point_to_row sid point = none) ∧
    (∀ p, point = .obj p → (dictGet p "jd").isNull = false →
      ∃ row, photometry_point_to_row sid point = some row ∧
        lookup? row "is_detection" = some (.bool (!(dictGet p "flux").isNull)) ∧
        ((dictGet p "flux").isNull = true →
          lookup? row "is_detection" = some (.bool false)) ∧
        ((dictGet p "filters").isObj = false →
          lookup? row "filter" = some .null)) := by
  refine ⟨?_, ?_, ?_⟩
  · intro h
    cases point <;> simp_all [photometry_point_to_row, JValue.isObj]
  · rintro p rfl hjd
    simp [photometry_point_to_row, hjd]
  · rintro p rfl hjd
    have hr : photometry_point_to_row sid (.obj p) = some
        [("id", sid), ("jd", dictGet p "jd"), ("flux", dictGet p "flux"),
         ("flux_err", dictGet p "fluxerr"),
         ("filter", match pyOr (dictGet p "filters") (.obj []) with
                    | .obj f => dictGet f "name"
                    | _ => .null),
         ("is_detection", .bool (!(dictGet p "flux").isNull))] := by
      simp [photometry_point_to_row, hjd]
    refine ⟨_, hr, ?_, ?_, ?_⟩
    · simp [lookup?]
    · intro hflux
      simp [lookup?, hflux]
    · intro hfil
      have hnull : (match pyOr (dictGet p "filters") (.obj []) with
          | .obj f => dictGet f "name"
          | _ => .null) = .null := by
        cases hv : dictGet p "filters" with
        | obj o => simp [JValue.isObj, hv] at hfil
        | null => simp [pyOr, truthy, dictGet, lookup?]
        | bool b => cases b <;> simp [pyOr, truthy, dictGet, lookup?]
        | num q => by_cases hq : q = 0 <;> simp [pyOr, truthy, hq, dictGet, lookup?]
        | str s => cases hs : s.isEmpty <;> simp [pyOr, truthy, hs, dictGet, lookup?]
        | arr l => cases l <;> simp [pyOr, truthy, dictGet, lookup?]
      simp [lookup?, hnull]

/-- Witness for C5 at concrete points: a point whose `jd` is stored
null yields no row; a point with `jd` and no `flux` yields a row. -/
theorem C5_witness :
    photometry_point_to_row (.str "s") (.obj [("jd", .null), ("flux", .num 1)]) = none ∧
    photometry_point_to_row (.str "s") (.obj [("jd", .num 1)]) ≠ none := by
  constructor
  · exact (C5_photometry_point_characterization (.str "s") _).2.1 _ rfl rfl
  · obtain ⟨row, hrow, -, -, -⟩ :=
      (C5_photometry_point_characterization (.str "s")
        (.obj [("jd", .num 1)])).2.2 [("jd", .num 1)] rfl rfl
    simp [hrow]

/-- C6: for every valid source record, the flattened row's presence and
count fields come straight from the extracted lists: `n_photometry`
equals the extracted photometry list's length, `has_photometry` equals
"that length is positive", and likewise for spectra. -/
theorem C6_presence_count_fields_match_lists
    (d : List (String × JValue)) (row : List (String × JValue))
    (pl sl : List JValue)
    (h : source_to_row (.obj d) = .ok (some row))
    (hp : parse_photometry d = .ok pl) (hs : parse_spectra d = .ok sl) :
    lookup? row "n_photometry" = some (.num pl.length) ∧
    lookup? row "has_photometry" = some (.bool (decide (0 < pl.length))) ∧
    lookup? row "n_spectra" = some (.num sl.length) ∧
    lookup? row "has_spectra" = some (.bool (decide (0 < sl.length))) := by
  rw [source_to_row] at h
  cases hval : validate_source d with
  | error e => rw [hval] at h; simp at h
  | ok u =>
    rw [hval, hp, hs] at h
    cases hl : parse_label d with
    | error e => rw [hl] at h; simp at h
    | ok label =>
      rw [hl] at h
      simp only [Except.ok.injEq, Option.some.injEq] at h
      subst h
      simp [lookup?]

/-- Witness for C6 at a concrete record carrying one photometry point
and no spectra. -/
theorem C6_witness :
    lookup? [("id", .num 1), ("ra", .num 2), ("dec", .num 3), ("score", .num 4),
      ("is_transient", .null), ("is_varstar", .null), ("is_roid", .null),
      ("redshift", .null), ("label", .null),
      ("has_tns", .bool true), ("has_redshift", .bool false),
      ("has_photometry", .bool true), ("has_spectra", .bool false),
      ("n_photometry", .num 1), ("n_spectra", .num 0)] "n_photometry" =
      some (.num 1) ∧
    lookup? [("id", .num 1), ("ra", .num 2), ("dec", .num 3), ("score", .num 4),
      ("is_transient", .null), ("is_varstar", .null), ("is_roid", .null),
      ("redshift", .null), ("label", .null),
      ("has_tns", .bool true), ("has_redshift", .bool false),
      ("has_photometry", .bool true), ("has_spectra", .bool false),
      ("n_photometry", .num 1), ("n_spectra", .num 0)] "has_photometry" =
      some (.bool true) := by
  have h := C6_presence_count_fields_match_lists
    [("id", .num 1), ("ra", .num 2), ("dec", .num 3), ("score", .num 4),
     ("tns_info", .obj [("photometry", .arr [.obj [("jd", .num 7)]])])]
    [("id", .num 1), ("ra", .num 2), ("dec", .num 3), ("score", .num 4),
     ("is_transient", .null), ("is_varstar", .null), ("is_roid", .null),
     ("redshift", .null), ("label", .null),
     ("has_tns", .bool true), ("has_redshift", .bool false),
     ("has_photometry", .bool true), ("has_spectra", .bool false),
     ("n_photometry", .num 1), ("n_spectra", .num 0)]
    [.obj [("jd", .num 7)]] [] (by rfl) (by rfl) (by rfl)
  exact ⟨h.1, h.2.1⟩

/-- C7: the summarizer always returns the point count, the detection
count (rows with non-null flux) and the sorted set of distinct non-null
filter names; with at least one detection, `flux_min` / `flux_max` are
the least / greatest flux among detections and `time_span_days` is
`max jd - min jd` over detection rows only; with no detection the three
numeric fields are explicitly absent. -/
theorem C7_summarize_lightcurve_contract (lc : List LCRow) :
    (summarize_lightcurve lc).n_points = lc.length ∧
    (summarize_lightcurve lc).n_detections =
      (lc.filter (fun r => r.flux.isSome)).length ∧
    (summarize_lightcurve lc).filters.Sorted (· ≤ ·) ∧
    (summarize_lightcurve lc).filters.Nodup ∧
    (∀ f, f ∈ (summarize_lightcurve lc).filters ↔
      some f ∈ lc.map (fun r => r.filt)) ∧
    (lc.filter (fun r => r.flux.isSome) = [] →
      (summarize_lightcurve lc).flux_min = none ∧
      (summarize_lightcurve lc).flux_max = none ∧
      (summarize_lightcurve lc).time_span_days = none) ∧
    (lc.filter (fun r => r.flux.isSome) ≠ [] →
      (∃ m, (summarize_lightcurve lc).flux_min = some m ∧
        m ∈ (lc.filter (fun r => r.flux.isSome)).filterMap (fun r => r.flux) ∧
        ∀ x ∈ (lc.filter (fun r => r.flux.isSome)).filterMap (fun r => r.flux),
          m ≤ x) ∧
      (∃ M, (summarize_lightcurve lc).flux_max = some M ∧
        M ∈ (lc.filter (fun r => r.flux.isSome)).filterMap (fun r => r.flux) ∧
        ∀ x ∈ (lc.filter (fun r => r.flux.isSome)).filterMap (fun r => r.flux),
          x ≤ M) ∧
      (∃ hi lo, (summarize_lightcurve lc).time_span_days = some (hi - lo) ∧
        hi ∈ (lc.filter (fun r => r.flux.isSome)).map (fun r => r.jd) ∧
        lo ∈ (lc.filter (fun r => r.flux.isSome)).map (fun r => r.jd) ∧
        ∀ x ∈ (lc.filter (fun r => r.flux.isSome)).map (fun r => r.jd),
          lo ≤ x ∧ x ≤ hi)) := by
  refine ⟨rfl, rfl, ?_, ?_, ?_, ?_, ?_⟩
  · exact List.sorted_insertionSort _ _
  · exact ((List.perm_insertionSort _ _).nodup_iff).mpr (List.nodup_dedup _)
  · intro f
    rw [show (summarize_lightcurve lc).filters =
        List.insertionSort (fun a b => a ≤ b) (lc.filterMap (fun r => r.filt)).dedup
        from rfl,
      List.Perm.mem_iff (List.perm_insertionSort _ _), List.mem_dedup]
    simp only [List.mem_filterMap, List.mem_map]
  · intro hdet
    refine ⟨?_, ?_, ?_⟩ <;> simp [summarize_lightcurve, hdet]
  · intro hne
    have hie : (lc.filter (fun r => r.flux.isSome)).isEmpty = false := by
      cases hD : lc.filter (fun r => r.flux.isSome) with
      | nil => exact absurd hD hne
      | cons a t => rfl
    have hfl : (lc.filter (fun r => r.flux.isSome)).filterMap (fun r => r.flux) ≠ [] := by
      cases hD : lc.filter (fun r => r.flux.isSome) with
      | nil => exact absurd hD hne
      | cons a t =>
        have ha : a ∈ lc.filter (fun r => r.flux.isSome) := by
          rw [hD]; exact List.mem_cons_self a t
        have hs : a.flux.isSome := (List.mem_filter.mp ha).2
        obtain ⟨v, hv⟩ := Option.isSome_iff_exists.mp hs
        simp [List.filterMap_cons, hv]
    have hjl : (lc.filter (fun r => r.flux.isSome)).map (fun r => r.jd) ≠ [] := by
      cases hD : lc.filter (fun r => r.flux.isSome) with
      | nil => exact absurd hD hne
      | cons a t => simp [hD]
    refine ⟨?_, ?_, ?_⟩
    · cases hmin : ((lc.filter (fun r => r.flux.isSome)).filterMap (fun r => r.flux)).min? with
      | none => exact absurd (List.min?_eq_none_iff.mp hmin) hfl
      | some m =>
        refine ⟨m, by simp [summarize_lightcurve, hie, hmin], ?_, ?_⟩
        · exact List.min?_mem min_choice hmin
        · exact fun x hx =>
            (List.le_min?_iff (fun a b c => le_min_iff) hmin).mp (le_refl m) x hx
    · cases hmax : ((lc.filter (fun r => r.flux.isSome)).filterMap (fun r => r.flux)).max? with
      | none => exact absurd (List.max?_eq_none_iff.mp hmax) hfl
      | some M =>
        refine ⟨M, by simp [summarize_lightcurve, hie, hmax], ?_, ?_⟩
        · exact List.max?_mem max_choice hmax
        · exact fun x hx =>
            (List.max?_le_iff (fun a b c => max_le_iff) hmax).mp (le_refl M) x hx
    · cases hmax : ((lc.filter (fun r => r.flux.isSome)).map (fun r => r.jd)).max? with
      | none => exact absurd (List.max?_eq_none_iff.mp hmax) hjl
      | some hi =>
        cases hmin : ((lc.filter (fun r => r.flux.isSome)).map (fun r => r.jd)).min? with
        | none => exact absurd (List.min?_eq_none_iff.mp hmin) hjl
        | some lo =>
          refine ⟨hi, lo, by simp [summarize_lightcurve, hie, hmax, hmin], ?_, ?_, ?_⟩
          · exact List.max?_mem max_choice hmax
          · exact List.min?_mem min_choice hmin
          · exact fun x hx =>
              ⟨(List.le_min?_iff (fun a b c => le_min_iff) hmin).mp (le_refl lo) x hx,
               (List.max?_le_iff (fun a b c => max_le_iff) hmax).mp (le_refl hi) x hx⟩

/-- Witness for C7: a lightcurve with one non-detection point has all
three numeric summary statistics explicitly absent. -/
theorem C7_witness :
    (summarize_lightcurve [⟨5, none, some "g"⟩]).flux_min = none ∧
    (summarize_lightcurve [⟨5, none, some "g"⟩]).flux_max = none ∧
    (summarize_lightcurve [⟨5, none, some "g"⟩]).time_span_days = none :=
  (C7_summarize_lightcurve_contract [⟨5, none, some "g"⟩]).2.2.2.2.2.1 rfl

set_option maxRecDepth 16384 in
/-- Stripping the rendered f-string removes exactly the leading and
trailing newline: the prompt equals the concatenated body pieces. -/
theorem build_prompt_eq_body (sr ls : List (String × JValue)) :
    build_prompt sr ls = catStrings (promptBody sr ls) := by
  have hB : (catStrings (promptBody sr ls)).data =
      pHead.data ++ ((catStrings (bodyMid sr ls)).data ++ pTask.data) := by
    simp [promptBody, catStrings, strData_append, catStrings_append]
  have hW : (catStrings (promptPieces sr ls)).data =
      '\n' :: ((catStrings (promptBody sr ls)).data ++ ['\n']) := by
    simp [promptPieces, catStrings, strData_append, catStrings_append]
  have hfixH : pHead.data.dropWhile isPySpace = pHead.data := rfl
  have hneH : pHead.data ≠ [] := by decide
  have hfixT : pTask.data.reverse.dropWhile isPySpace = pTask.data.reverse := rfl
  have hneT : pTask.data.reverse ≠ [] := by decide
  unfold build_prompt pyStrip
  rw [hW, List.dropWhile_cons_of_pos (by rfl), hB, List.append_assoc,
    dropWhile_append_of_fix isPySpace pHead.data _ hneH hfixH]
  simp only [List.reverse_append, List.reverse_cons, List.reverse_nil,
    List.nil_append, List.cons_append, List.append_assoc, List.singleton_append]
  rw [List.dropWhile_cons_of_pos (by rfl),
    dropWhile_append_of_fix isPySpace pTask.data.reverse _ hneT hfixT]
  simp only [List.reverse_append, List.reverse_reverse, List.append_assoc]
  rw [← hB]

set_option maxRecDepth 65536 in
/-- C8: for every source row and lightcurve summary, the prompt
contains all the metadata field labels and all five summary field
labels as literal substrings; when every input value is absent each
field renders with the explicit `None` placeholder token instead of
being omitted. -/
theorem C8_prompt_always_contains_fields (sr ls : List (String × JValue)) :
    (strHas (build_prompt sr ls) "ID:" = true ∧
     strHas (build_prompt sr ls) "RA / Dec:" = true ∧
     strHas (build_prompt sr ls) "Detection score:" = true ∧
     strHas (build_prompt sr ls) "Is transient (heuristic):" = true ∧
     strHas (build_prompt sr ls) "Is variable star:" = true ∧
     strHas (build_prompt sr ls) "Is minor object:" = true ∧
     strHas (build_prompt sr ls) "TNS reported:" = true ∧
     strHas (build_prompt sr ls) "Redshift available:" = true ∧
     strHas (build_prompt sr ls) "Spectra available:" = true ∧
     strHas (build_prompt sr ls) "Redshift value:" = true ∧
     strHas (build_prompt sr ls) "TNS label (if any):" = true ∧
     strHas (build_prompt sr ls) "Number of photometry points:" = true ∧
     strHas (build_prompt sr ls) "Number of detections:" = true ∧
     strHas (build_prompt sr ls) "Filters used:" = true ∧
     strHas (build_prompt sr ls) "Flux range:" = true ∧
     strHas (build_prompt sr ls) "Observed time span (days):" = true) ∧
    (strHas (build_prompt [] []) "ID: None" = true ∧
     strHas (build_prompt [] []) "RA / Dec: None, None" = true ∧
     strHas (build_prompt [] []) "Detection score: None" = true ∧
     strHas (build_prompt [] []) "Is transient (heuristic): None" = true ∧
     strHas (build_prompt [] []) "Is variable star: None" = true ∧
     strHas (build_prompt [] []) "Is minor object: None" = true ∧
     strHas (build_prompt [] []) "TNS reported: None" = true ∧
     strHas (build_prompt [] []) "Redshift available: None" = true ∧
     strHas (build_prompt [] []) "Spectra available: None" = true ∧
     strHas (build_prompt [] []) "Redshift value: None" = true ∧
     strHas (build_prompt [] []) "TNS label (if any): None" = true ∧
     strHas (build_prompt [] []) "Number of photometry points: None" = true ∧
     strHas (build_prompt [] []) "Number of detections: None" = true ∧
     strHas (build_prompt [] []) "Filters used: None" = true ∧
     strHas (build_prompt [] []) "Flux range: None to None" = true ∧
     strHas (build_prompt [] []) "Observed time span (days): None" = true) := by
  have key : ∀ (s n : String), s ∈ promptBody sr ls → hasSub s.data n.data = true →
      strHas (build_prompt sr ls) n = true := by
    intro s n hmem hsub
    rw [strHas, build_prompt_eq_body]
    exact hasSub_cat_of_mem s n.data _ hmem hsub
  refine ⟨⟨?_, ?_, ?_, ?_, ?_, ?_, ?_, ?_, ?_, ?_, ?_, ?_, ?_, ?_, ?_, ?_⟩, ?_⟩
  · exact key pHead "ID:" (by simp [promptBody]) (by decide)
  · exact key "\nRA / Dec: " "RA / Dec:" (by simp [promptBody, bodyMid]) (by decide)
  · exact key "\nDetection score: " "Detection score:"
      (by simp [promptBody, bodyMid]) (by decide)
  · exact key "\n\nPipeline flags:\n- Is transient (heuristic): "
      "Is transient (heuristic):" (by simp [promptBody, bodyMid]) (by decide)
  · exact key "\n- Is variable star: " "Is variable star:"
      (by simp [promptBody, bodyMid]) (by decide)
  · exact key "\n- Is minor object: " "Is minor object:"
      (by simp [promptBody, bodyMid]) (by decide)
  · exact key "\n\nHigh-confidence signals:\n- TNS reported: " "TNS reported:"
      (by simp [promptBody, bodyMid]) (by decide)
  · exact key "\n- Redshift available: " "Redshift available:"
      (by simp [promptBody, bodyMid]) (by decide)
  · exact key "\n- Spectra available: " "Spectra available:"
      (by simp [promptBody, bodyMid]) (by decide)
  · exact key "\n- Redshift value: " "Redshift value:"
      (by simp [promptBody, bodyMid]) (by decide)
  · exact key "\n- TNS label (if any): " "TNS label (if any):"
      (by simp [promptBody, bodyMid]) (by decide)
  · exact key "\n\n=== Lightcurve summary ===\nNumber of photometry points: "
      "Number of photometry points:" (by simp [promptBody, bodyMid]) (by decide)
  · exact key "\nNumber of detections: " "Number of detections:"
      (by simp [promptBody, bodyMid]) (by decide)
  · exact key "\nFilters used: " "Filters used:"
      (by simp [promptBody, bodyMid]) (by decide)
  · exact key "\nFlux range: " "Flux range:"
      (by simp [promptBody, bodyMid]) (by decide)
  · exact key "\nObserved time span (days): " "Observed time span (days):"
      (by simp [promptBody, bodyMid]) (by decide)
  · rw [show build_prompt [] [] = catStrings (promptBody [] [])
      from build_prompt_eq_body [] []]
    refine ⟨?_, ?_, ?_, ?_, ?_, ?_, ?_, ?_, ?_, ?_, ?_, ?_, ?_, ?_, ?_, ?_⟩ <;>
      decide

/-- The source row loop is a homomorphism over input concatenation:
the rows produced for later records do not depend on earlier ones. -/
theorem buildRows_append (ys : List JValue) : ∀ xs : List JValue,
    buildRows (xs ++ ys) =
      (match buildRows xs with
       | .error e => .error e
       | .ok a =>
         match buildRows ys with
         | .error e => .error e
         | .ok b => .ok (a ++ b)) := by
  intro xs
  induction xs with
  | nil =>
    cases hys : buildRows ys <;> simp [buildRows, hys]
  | cons x t ih =>
    by_cases hx : x.isObj
    · cases hsx : source_to_row x with
      | error e => simp [buildRows, hx, hsx]
      | ok row? =>
        cases hbt : buildRows t with
        | error e =>
          rw [hbt] at ih
          cases hys : buildRows ys <;>
            simp [buildRows, hx, hsx, hbt, ih, hys]
        | ok rs =>
          rw [hbt] at ih
          cases hys : buildRows ys with
          | error e2 => simp [buildRows, hx, hsx, hbt, ih, hys]
          | ok b =>
            simp [buildRows, hx, hsx, hbt, ih, hys]
            cases row? <;> simp [List.append_assoc]
    · simp [buildRows, hx, ih]

/-- The lightcurve row loop is a homomorphism over input concatenation. -/
theorem buildLCRows_append (ys : List JValue) : ∀ xs : List JValue,
    buildLCRows (xs ++ ys) =
      (match buildLCRows xs with
       | .error e => .error e
       | .ok a =>
         match buildLCRows ys with
         | .error e => .error e
         | .ok b => .ok (a ++ b)) := by
  intro xs
  induction xs with
  | nil =>
    cases hys : buildLCRows ys <;> simp [buildLCRows, hys]
  | cons x t ih =>
    cases x with
    | obj d =>
      by_cases hid : (dictGet d "id").isNull
      · simp [buildLCRows, hid, ih]
      · cases hp : parse_photometry d with
        | error e => simp [buildLCRows, hid, hp]
        | ok pts =>
          cases hbt : buildLCRows t with
          | error e =>
            rw [hbt] at ih
            cases hys : buildLCRows ys <;>
              simp [buildLCRows, hid, hp, hbt, ih, hys, List.append_assoc]
          | ok rs =>
            rw [hbt] at ih
            cases hys : buildLCRows ys <;>
              simp [buildLCRows, hid, hp, hbt, ih, hys, List.append_assoc]
    | null => simp [buildLCRows, ih]
    | bool b => simp [buildLCRows, ih]
    | num q => simp [buildLCRows, ih]
    | str s => simp [buildLCRows, ih]
    | arr l => simp [buildLCRows, ih]

/-- C9: both flatteners are pure functions of their input — flattening
the same record twice yields identical rows — and the builders carry no
hidden state across records: building a concatenated input equals
building the parts and concatenating the row lists. -/
theorem C9_flatteners_pure_and_stateless (v : JValue) (xs ys : List JValue) :
    source_to_row v = source_to_row v ∧
    source_to_lightcurve_rows v = source_to_lightcurve_rows v ∧
    buildRows (xs ++ ys) =
      (match buildRows xs with
       | .error e => .error e
       | .ok a =>
         match buildRows ys with
         | .error e => .error e
         | .ok b => .ok (a ++ b)) ∧
    buildLCRows (xs ++ ys) =
      (match buildLCRows xs with
       | .error e => .error e
       | .ok a =>
         match buildLCRows ys with
         | .error e => .error e
         | .ok b => .ok (a ++ b)) :=
  ⟨rfl, rfl, buildRows_append ys xs, buildLCRows_append ys xs⟩

/-- One lightcurve row is emitted per photometry point that is a
mapping with a non-absent `jd`; all other points yield none. -/
theorem photometry_rows_count (sid : JValue) : ∀ pts : List JValue,
    (pts.filterMap (photometry_point_to_row sid)).length =
      pts.countP (fun p => match p with
                  | .obj pd => !(dictGet pd "jd").isNull
                  | _ => false) := by
  intro pts
  induction pts with
  | nil => rfl
  | cons p t ih =>
    cases p with
    | obj pd =>
      by_cases hjd : (dictGet pd "jd").isNull <;>
        simp [List.filterMap_cons, List.countP_cons, photometry_point_to_row,
          hjd, ih]
    | null => simp [List.filterMap_cons, List.countP_cons, photometry_point_to_row, ih]
    | bool b => simp [List.filterMap_cons, List.countP_cons, photometry_point_to_row, ih]
    | num q => simp [List.filterMap_cons, List.countP_cons, photometry_point_to_row, ih]
    | str s => simp [List.filterMap_cons, List.countP_cons, photometry_point_to_row, ih]
    | arr l => simp [List.filterMap_cons, List.countP_cons, photometry_point_to_row, ih]

/-- C10: the lightcurve dataset builder silently skips a mapping record
whose `id` is absent or null and never invokes required-field
validation: with a non-null `id`, once photometry extraction succeeds
the record contributes exactly one row per `jd`-bearing photometry
point — whatever `ra`, `dec` or `score` look like — so a missing
required field never fails the lightcurve build, unlike the source
build. -/
theorem C10_lightcurve_build_skips_nullid_never_validates
    (d : List (String × JValue)) (rest pts : List JValue) :
    ((dictGet d "id").isNull = true →
      buildLCRows (.obj d :: rest) = buildLCRows rest) ∧
    ((dictGet d "id").isNull = false → parse_photometry d = .ok pts →
      buildLCRows (.obj d :: rest) =
        (match buildLCRows rest with
         | .error e => .error e
         | .ok rs =>
           .ok (pts.filterMap (photometry_point_to_row (dictGet d "id")) ++ rs)) ∧
      (pts.filterMap (photometry_point_to_row (dictGet d "id"))).length =
        pts.countP (fun p => match p with
                    | .obj pd => !(dictGet pd "jd").isNull
                    | _ => false)) := by
  constructor
  · intro hid
    simp [buildLCRows, hid]
  · intro hid hp
    refine ⟨?_, photometry_rows_count (dictGet d "id") pts⟩
    simp [buildLCRows, hid, hp]

/-- Witness for C10: a record with only `id` and photometry — no `ra`,
`dec` or `score` — still contributes its `jd`-bearing point, and a
record without `id` is skipped. -/
theorem C10_witness :
    buildLCRows [.obj [("id", .str "s"),
        ("tns_info", .obj [("photometry",
          .arr [.obj [("jd", .num 1)], .str "junk"])])]] =
      .ok [[("id", .str "s"), ("jd", .num 1), ("flux", .null),
            ("flux_err", .null), ("filter", .null),
            ("is_detection", .bool false)]] ∧
    buildLCRows [.obj [("ra", .num 0)]] = .ok [] := by
  constructor
  · exact ((C10_lightcurve_build_skips_nullid_never_validates
      [("id", .str "s"),
       ("tns_info", .obj [("photometry", .arr [.obj [("jd", .num 1)], .str "junk"])])]
      [] [.obj [("jd", .num 1)], .str "junk"]).2 rfl rfl).1
  · exact (C10_lightcurve_build_skips_nullid_never_validates
      [("ra", .num 0)] [] []).1 rfl
